import Mathlib

/-!
# Verification of the voice-based counselor chatbot's core pipeline

Shallow embedding of `src/app/main.py`: audio normalization
(`process_audio`), text emotion classification (`get_emotion_from_gpt`),
the recognition fallback loop inside `process_recorded_audio`,
conversation statistics (`update_conversation_stats`) and the session
state transitions of `render_chat_area` / `render_chat_page`.

External collaborators (the language model, the Google speech recognizer,
the response generator, torchaudio's resampler, the wall clock) are taken
as function parameters; machine floats are modelled over `ℚ`.
-/

namespace VoiceChatbot

/-- Python `str.strip()` on our string model: drop ASCII whitespace from
both ends, character-wise. -/
def pyStrip (s : String) : String :=
  String.mk (((s.data.dropWhile Char.isWhitespace).reverse.dropWhile Char.isWhitespace).reverse)

/-- Modelled from the spec: `EMOTION_MAPPING` lives in
`src/app/constants.py`, which is not among the sources; the spec fixes
its values to the closed emotion set
`Anger, Disgust, Fear, Happy, Neutral, Sad`. -/
def predefined_emotions : List String :=
  ["Anger", "Disgust", "Fear", "Happy", "Neutral", "Sad"]

/-- Modelled from the spec: `DEFAULT_EMOTION` lives in
`src/app/constants.py`, which is not among the sources; the spec requires
the default label to be a member of the fixed set and names `Neutral`. -/
def DEFAULT_EMOTION : String := "Neutral"

/-- The instruction built by `get_emotion_from_gpt` (main.py:61-65). -/
def emotion_prompt (prompt : String) : String :=
  "The user said: \"" ++ prompt ++ "\".\n" ++
  "Classify the user's input into one of these emotions: " ++
  String.intercalate ", " predefined_emotions ++ ".\n" ++
  "Respond ONLY with the emotion name (e.g., Happy, Neutral).\n"

/-- `get_emotion_from_gpt` (main.py:50-73). `llm` models
`st.session_state.chatbot_service.llm.invoke(...).content`. -/
def get_emotion_from_gpt (llm : String → String) (prompt : String) : String :=
  let detected_emotion := pyStrip (llm (emotion_prompt prompt))
  if detected_emotion ∈ predefined_emotions then detected_emotion else DEFAULT_EMOTION

/-- A chat message as built by `add_chat_message` (main.py:131-146). -/
structure Message where
  role : String
  content : String
  timestamp : String
  emotion : Option String
deriving Repr, DecidableEq

/-- The `conversation_stats` dictionary (main.py:155-160). -/
structure ConversationStats where
  total : Nat
  positive : Nat
  negative : Nat
deriving Repr, DecidableEq

/-- `positive_emotions` (main.py:166). -/
def positive_emotions : List String := ["Happy"]

/-- `negative_emotions` (main.py:167). -/
def negative_emotions : List String := ["Anger", "Disgust", "Fear", "Sad"]

/-- `update_conversation_stats` (main.py:148-172): `total` always grows
by one; `positive` grows iff the emotion is in `positive_emotions`, else
`negative` grows iff it is in `negative_emotions`. -/
def update_conversation_stats (stats : ConversationStats) (emotion : String) :
    ConversationStats :=
  let stats := { stats with total := stats.total + 1 }
  if emotion ∈ positive_emotions then
    { stats with positive := stats.positive + 1 }
  else if emotion ∈ negative_emotions then
    { stats with negative := stats.negative + 1 }
  else
    stats

/-- The relevant `st.session_state` keys touched by the chat pipeline
(main.py:263-405). `initialized`, `last_message` and `audio_bytes` may be
absent in Python, hence the `Option`/`Bool` defaults. -/
structure SessionState where
  selected_persona : String
  messages : List Message
  conversation_stats : ConversationStats
  current_emotion : String
  last_message : Option String
  audio_bytes : Option (List Nat)
  processed_audio : Bool
  initialized : Bool
deriving Repr, DecidableEq

/-! ## Audio normalization (`process_audio`, main.py:75-97) -/

/-- Default of `process_audio`'s `target_sample_rate` parameter. -/
def target_sample_rate : Nat := 16000

/-- Default of `process_audio`'s `target_length` parameter. -/
def target_length : Nat := 16000

/-- The value at index `i` of `torch.mean(waveform, dim=0)`: the
arithmetic mean of the channels at that sample index. -/
def chanMean (w : List (List ℚ)) (i : Nat) : ℚ :=
  ((w.map fun ch => ch.getD i 0).sum) / (w.length : ℚ)

/-- `torch.mean(waveform, dim=0, keepdim=True)` flattened to the single
resulting channel: samples indexed over the first channel's length, as in
a rectangular tensor. -/
def meanChannel (w : List (List ℚ)) : List ℚ :=
  (List.range (w.headD []).length).map (chanMean w)

/-- `process_audio` (main.py:75-97), on a waveform given as a list of
channels over `ℚ` samples, returning the single output channel.
`resample` stands for `torchaudio.transforms.Resample`; the code sets
`current_sample_rate = target_sample_rate` right before comparing the
two (main.py:82-83), which this embedding reproduces verbatim. The
`try/except` that yields Python `None` is the `Option`. -/
def process_audio (resample : List ℚ → List ℚ) (waveform : List (List ℚ)) :
    Option (List ℚ) :=
  let w := if waveform.length > 1 then meanChannel waveform else waveform.headD []
  let w :=
    if w.length > 0 then
      let current_sample_rate := target_sample_rate
      if current_sample_rate ≠ target_sample_rate then resample w else w
    else w
  if w.length < target_length then
    some (w ++ List.replicate (target_length - w.length) 0)
  else
    some ((w.drop ((w.length - target_length) / 2)).take target_length)

/-! ## Speech recognition fallback loop (`process_recorded_audio`, main.py:174-261) -/

/-- Outcome of one `r.recognize_google(audio_data, language=...)` call:
a transcript, `sr.UnknownValueError`, or `sr.RequestError`. -/
inductive RecOutcome where
  | success (text : String)
  | unknownValue
  | requestError (msg : String)
deriving Repr, DecidableEq

/-- The ordered language list `['ko-KR', 'en-US']` (main.py:217). -/
def languages : List String := ["ko-KR", "en-US"]

/-- The `for language in languages` loop (main.py:219-235): an empty or
falsy transcript and both recognizer exception classes fall through to
the next language; the first non-empty transcript breaks the loop, and we
return it together with the loop variable `language` at the break. -/
def recognize_languages (recognize : String → RecOutcome) :
    List String → Option (String × String)
  | [] => none
  | language :: rest =>
    match recognize language with
    | .success text =>
        if text ≠ "" then some (text, language)
        else recognize_languages recognize rest
    | .unknownValue => recognize_languages recognize rest
    | .requestError _ => recognize_languages recognize rest

/-- Environment of external effects reached by `process_recorded_audio`:
whether the WAV write raised (main.py:188-199), the size reported by
`os.path.getsize` (main.py:193), whether reading the audio file raised,
the per-language recognizer, whether the emotion call raised, and the
language-model reply function. -/
structure AudioEnv where
  save_ok : Bool
  file_size : Nat
  read_ok : Bool
  recognize : String → RecOutcome
  classify_ok : Bool
  llm : String → String

/-- `process_recorded_audio` (main.py:174-261): validate the bytes, write
and size-check the temp WAV, run the recognition loop, then classify the
transcript; every failure path returns `(None, None)`. -/
def process_recorded_audio (env : AudioEnv) (audio_bytes : List Nat) :
    Option String × Option String :=
  if audio_bytes = [] then (none, none)
  else if ¬ env.save_ok then (none, none)
  else if env.file_size < 100 then (none, none)
  else if ¬ env.read_ok then (none, none)
  else
    match recognize_languages env.recognize languages with
    | none => (none, none)
    | some (text, _language) =>
        if env.classify_ok then (some text, some (get_emotion_from_gpt env.llm text))
        else (none, none)

/-! ## Session turns (`render_chat_area`, main.py:263-368) -/

/-- `add_chat_message` (main.py:131-146); `now` stands for
`datetime.now().strftime('%p %I:%M')`. -/
def add_chat_message (now : String) (role content : String) (emotion : Option String)
    (messages : List Message) : List Message :=
  messages ++ [{ role := role, content := content, timestamp := now, emotion := emotion }]

/-- The text-input branch of `render_chat_area` (main.py:350-360) plus
`handle_chat_message` (main.py:118-129): guard on a non-blank input that
differs from `last_message`, classify, respond, update stats, append the
user and assistant messages, record the marker. `respond` models
`chatbot_service.get_response`. -/
def apply_text_turn (llm : String → String) (respond : String → String → String)
    (now : String) (send_clicked : Bool) (chat_input : String) (s : SessionState) :
    SessionState :=
  if (send_clicked = true ∨ chat_input ≠ "") ∧ pyStrip chat_input ≠ "" ∧
      s.last_message ≠ some chat_input then
    let user_emotion := get_emotion_from_gpt llm chat_input
    let response := respond chat_input s.selected_persona
    { s with
      conversation_stats := update_conversation_stats s.conversation_stats user_emotion,
      messages := add_chat_message now "assistant" response none
        (add_chat_message now "user" chat_input (some user_emotion) s.messages),
      current_emotion := user_emotion,
      last_message := some chat_input }
  else s

/-- The audio branch of `render_chat_area` (main.py:302-345): on fresh,
unprocessed bytes, mark them, run `process_recorded_audio`; on a full
`(text, emotion)` pair respond, update stats, append both messages and
reset the audio markers; otherwise only reset the audio markers. -/
def apply_audio_turn (env : AudioEnv) (respond : String → String → String)
    (now : String) (new_audio_bytes : Option (List Nat)) (s : SessionState) :
    SessionState :=
  match new_audio_bytes with
  | none => s
  | some b =>
    if some b ≠ s.audio_bytes ∧ s.processed_audio = false then
      let s1 := { s with audio_bytes := some b, processed_audio := true }
      match process_recorded_audio env b with
      | (some audio_text, some audio_emotion) =>
        if audio_text ≠ "" ∧ audio_emotion ≠ "" then
          let response := respond audio_text s1.selected_persona
          { s1 with
            conversation_stats := update_conversation_stats s1.conversation_stats audio_emotion,
            messages := add_chat_message now "assistant" response none
              (add_chat_message now "user" ("[음성] " ++ audio_text) (some audio_emotion) s1.messages),
            current_emotion := audio_emotion,
            last_message := some audio_text,
            processed_audio := false,
            audio_bytes := none }
        else { s1 with processed_audio := false, audio_bytes := none }
      | _ => { s1 with processed_audio := false, audio_bytes := none }
    else s

/-! ## Session lifecycle (`render_chat_page`, main.py:370-405) -/

/-- Modelled from the spec: `clear_session_state` and
`initialize_session_state` live in `src/utils/state_management.py`, which
is not among the sources. Per the spec's SessionLifecycle, initialization
after a clear seeds empty history, zeroed statistics, the default
emotion, fresh turn markers, and records the persona. -/
def initSessionState (persona : String) : SessionState :=
  { selected_persona := persona
    messages := []
    conversation_stats := { total := 0, positive := 0, negative := 0 }
    current_emotion := DEFAULT_EMOTION
    last_message := none
    audio_bytes := none
    processed_audio := false
    initialized := true }

/-- The state-handling core of `render_chat_page` (main.py:384-398): when
uninitialized or the persona changed, stash `old_messages`, clear and
re-seed the state for `selected_persona`, then restore `old_messages`
whenever they are non-empty and the (freshly re-seeded) state's persona
equals `selected_persona`. -/
def render_chat_page_state (selected_persona : String) (s : SessionState) :
    SessionState :=
  if s.initialized = false ∨ s.selected_persona ≠ selected_persona then
    let old_messages := s.messages
    let s1 := initSessionState selected_persona
    if old_messages ≠ [] ∧ s1.selected_persona = selected_persona then
      { s1 with messages := old_messages }
    else s1
  else s

/-! ## Theorems -/

/-- Each single statistics update keeps `positive + negative ≤ total`. -/
theorem update_stats_preserves_le (s : ConversationStats) (e : String)
    (h : s.positive + s.negative ≤ s.total) :
    (update_conversation_stats s e).positive + (update_conversation_stats s e).negative ≤
      (update_conversation_stats s e).total := by
  unfold update_conversation_stats
  by_cases hp : e ∈ positive_emotions <;> by_cases hn : e ∈ negative_emotions <;>
    simp [hp, hn] <;> omega

/-- Folding statistics updates keeps `positive + negative ≤ total`. -/
theorem foldl_update_stats_le (labels : List String) (s : ConversationStats)
    (h : s.positive + s.negative ≤ s.total) :
    (labels.foldl update_conversation_stats s).positive +
      (labels.foldl update_conversation_stats s).negative ≤
      (labels.foldl update_conversation_stats s).total := by
  induction labels generalizing s with
  | nil => simpa using h
  | cons e rest ih => exact ih _ (update_stats_preserves_le s e h)

/-- **C3**: `update_conversation_stats` is a pure function of the counters
and the label: `total` grows by exactly one; `positive` grows by one iff
the label is in the positive set; `negative` grows by one iff the label is
in the negative set; `Neutral` changes neither; and from zeroed counters
any sequence of updates keeps `positive + negative ≤ total`. -/
theorem C3_stats_update (stats : ConversationStats) (emotion : String) :
    (update_conversation_stats stats emotion).total = stats.total + 1 ∧
    ((update_conversation_stats stats emotion).positive =
      if emotion ∈ positive_emotions then stats.positive + 1 else stats.positive) ∧
    ((update_conversation_stats stats emotion).negative =
      if emotion ∈ negative_emotions then stats.negative + 1 else stats.negative) ∧
    ((update_conversation_stats stats "Neutral").positive = stats.positive ∧
      (update_conversation_stats stats "Neutral").negative = stats.negative) ∧
    ∀ labels : List String,
      (labels.foldl update_conversation_stats ⟨0, 0, 0⟩).positive +
        (labels.foldl update_conversation_stats ⟨0, 0, 0⟩).negative ≤
        (labels.foldl update_conversation_stats ⟨0, 0, 0⟩).total := by
  refine ⟨?_, ?_, ?_, ⟨?_, ?_⟩, fun labels => foldl_update_stats_le labels ⟨0, 0, 0⟩ (by simp)⟩
  · unfold update_conversation_stats
    by_cases hp : emotion ∈ positive_emotions <;> by_cases hn : emotion ∈ negative_emotions <;>
      simp [hp, hn]
  · unfold update_conversation_stats
    by_cases hp : emotion ∈ positive_emotions <;> by_cases hn : emotion ∈ negative_emotions <;>
      simp [hp, hn]
  · unfold update_conversation_stats
    by_cases hp : emotion ∈ positive_emotions
    · have he : emotion = "Happy" := by simpa [positive_emotions] using hp
      subst he
      have hn : "Happy" ∉ negative_emotions := by decide
      simp [hp, hn]
    · by_cases hn : emotion ∈ negative_emotions <;> simp [hp, hn]
  · unfold update_conversation_stats
    simp [positive_emotions, negative_emotions]
  · unfold update_conversation_stats
    simp [positive_emotions, negative_emotions]

/-- **C8**: the text emotion classifier always yields a member of the
fixed emotion set, and whenever the trimmed collaborator reply is not in
the set it yields the configured default label. -/
theorem C8_text_classifier_closed (llm : String → String) (prompt : String) :
    get_emotion_from_gpt llm prompt ∈ predefined_emotions ∧
    (pyStrip (llm (emotion_prompt prompt)) ∉ predefined_emotions →
      get_emotion_from_gpt llm prompt = DEFAULT_EMOTION) := by
  unfold get_emotion_from_gpt
  by_cases h : pyStrip (llm (emotion_prompt prompt)) ∈ predefined_emotions
  · exact ⟨by simp [h], fun hc => absurd h hc⟩
  · refine ⟨?_, fun _ => by simp [h]⟩
    simp only [h, if_false]
    decide

/-- **C8** witness: a collaborator that answers `"Excited"` makes the
classifier return the default label. -/
theorem C8_witness :
    get_emotion_from_gpt (fun _ => "Excited") "great news" = DEFAULT_EMOTION :=
  (C8_text_classifier_closed (fun _ => "Excited") "great news").2 (by decide)

/-- **C7**: the recognition loop tries the languages in order, where both
a "speech not understood" outcome and a request error fall through to the
next language, and the first non-empty transcript stops the loop paired
with the language that produced it; in particular `ko-KR` failing with
"not understood" while `en-US` yields `"hello"` gives
`("hello", "en-US")`. -/
theorem C7_recognition_fallback (recognize : String → RecOutcome)
    (language : String) (rest : List String) :
    (recognize language = .unknownValue →
      recognize_languages recognize (language :: rest) =
        recognize_languages recognize rest) ∧
    (∀ msg, recognize language = .requestError msg →
      recognize_languages recognize (language :: rest) =
        recognize_languages recognize rest) ∧
    (∀ text, recognize language = .success text → text ≠ "" →
      recognize_languages recognize (language :: rest) = some (text, language)) ∧
    recognize_languages
        (fun l => if l = "en-US" then .success "hello" else .unknownValue) languages =
      some ("hello", "en-US") := by
  refine ⟨?_, ?_, ?_, by decide⟩
  · intro h
    simp [recognize_languages, h]
  · intro msg h
    simp [recognize_languages, h]
  · intro text h ht
    simp [recognize_languages, h, ht]

/-- **C7** witness: the general fallback theorem applied to a concrete
recognizer succeeding with `"hello"` on `en-US`. -/
theorem C7_witness :
    recognize_languages (fun _ => .success "hello") ["en-US"] = some ("hello", "en-US") :=
  (C7_recognition_fallback (fun _ => .success "hello") "en-US" []).2.2.1 "hello" rfl
    (by decide)

/-- **C10**: `process_recorded_audio` returns either two `none`s or a
transcript together with its emotion label; never one without the
other. -/
theorem C10_all_or_nothing (env : AudioEnv) (audio_bytes : List Nat) :
    process_recorded_audio env audio_bytes = (none, none) ∨
    ∃ text emotion,
      process_recorded_audio env audio_bytes = (some text, some emotion) := by
  unfold process_recorded_audio
  split
  · exact Or.inl rfl
  · split
    · exact Or.inl rfl
    · split
      · exact Or.inl rfl
      · split
        · exact Or.inl rfl
        · cases hrec : recognize_languages env.recognize languages with
          | none => simp
          | some p =>
            obtain ⟨text, lang⟩ := p
            by_cases hc : env.classify_ok = true
            · exact Or.inr ⟨text, get_emotion_from_gpt env.llm text, by simp [hc]⟩
            · simp [hc]

/-- **C2**: running the text turn twice in a row with the identical
literal input — across any collaborator behaviors, clock values and
button states — leaves message history and statistics at their values
after the first run: the second run no-ops on the `last_message`
marker. -/
theorem C2_text_turn_idempotent (llm llm2 : String → String)
    (respond respond2 : String → String → String) (now now2 : String)
    (send_clicked send_clicked2 : Bool) (chat_input : String) (s : SessionState) :
    (apply_text_turn llm2 respond2 now2 send_clicked2 chat_input
        (apply_text_turn llm respond now send_clicked chat_input s)).messages =
      (apply_text_turn llm respond now send_clicked chat_input s).messages ∧
    (apply_text_turn llm2 respond2 now2 send_clicked2 chat_input
        (apply_text_turn llm respond now send_clicked chat_input s)).conversation_stats =
      (apply_text_turn llm respond now send_clicked chat_input s).conversation_stats := by
  suffices h : apply_text_turn llm2 respond2 now2 send_clicked2 chat_input
      (apply_text_turn llm respond now send_clicked chat_input s) =
      apply_text_turn llm respond now send_clicked chat_input s by
    rw [h]
    exact ⟨rfl, rfl⟩
  by_cases hg : (send_clicked = true ∨ chat_input ≠ "") ∧ pyStrip chat_input ≠ "" ∧
      s.last_message ≠ some chat_input
  · have hinner : apply_text_turn llm respond now send_clicked chat_input s =
        { s with
          conversation_stats := update_conversation_stats s.conversation_stats
            (get_emotion_from_gpt llm chat_input),
          messages := add_chat_message now "assistant"
            (respond chat_input s.selected_persona) none
            (add_chat_message now "user" chat_input
              (some (get_emotion_from_gpt llm chat_input)) s.messages),
          current_emotion := get_emotion_from_gpt llm chat_input,
          last_message := some chat_input } := by
      unfold apply_text_turn
      rw [if_pos hg]
    rw [hinner]
    unfold apply_text_turn
    rw [if_neg]
    rintro ⟨-, -, h3⟩
    exact h3 rfl
  · have hinner : apply_text_turn llm respond now send_clicked chat_input s = s := by
      unfold apply_text_turn
      rw [if_neg hg]
    rw [hinner]
    unfold apply_text_turn
    rw [if_neg]
    rintro ⟨_, h2, h3⟩
    have hne : chat_input ≠ "" := by
      intro he
      apply h2
      rw [he]
      rfl
    exact hg ⟨Or.inr hne, h2, h3⟩

/-- **C9**: whenever `process_recorded_audio` fails (returns the double
`None`), the audio turn appends no message and changes no statistics. -/
theorem C9_failed_audio_leaves_state (env : AudioEnv)
    (respond : String → String → String) (now : String) (b : List Nat)
    (s : SessionState)
    (hfail : process_recorded_audio env b = (none, none)) :
    (apply_audio_turn env respond now (some b) s).messages = s.messages ∧
    (apply_audio_turn env respond now (some b) s).conversation_stats =
      s.conversation_stats := by
  simp only [apply_audio_turn]
  by_cases hg : some b ≠ s.audio_bytes ∧ s.processed_audio = false
  · rw [if_pos hg, hfail]
    exact ⟨rfl, rfl⟩
  · rw [if_neg hg]
    exact ⟨rfl, rfl⟩

/-- **C9** witness: an empty audio buffer fails transcription and leaves
the freshly seeded session untouched. -/
theorem C9_witness :
    process_recorded_audio
        ⟨true, 1000, true, fun _ => .unknownValue, true, fun _ => "Neutral"⟩ [] =
      (none, none) ∧
    (apply_audio_turn
        ⟨true, 1000, true, fun _ => .unknownValue, true, fun _ => "Neutral"⟩
        (fun t _ => t) "AM 10:00" (some []) (initSessionState "친구")).messages =
      (initSessionState "친구").messages ∧
    (apply_audio_turn
        ⟨true, 1000, true, fun _ => .unknownValue, true, fun _ => "Neutral"⟩
        (fun t _ => t) "AM 10:00" (some []) (initSessionState "친구")).conversation_stats =
      (initSessionState "친구").conversation_stats :=
  ⟨rfl,
    (C9_failed_audio_leaves_state
      ⟨true, 1000, true, fun _ => .unknownValue, true, fun _ => "Neutral"⟩
      (fun t _ => t) "AM 10:00" [] (initSessionState "친구") rfl).1,
    (C9_failed_audio_leaves_state
      ⟨true, 1000, true, fun _ => .unknownValue, true, fun _ => "Neutral"⟩
      (fun t _ => t) "AM 10:00" [] (initSessionState "친구") rfl).2⟩

/-- A one-message session owned by persona `"할머니"`, about to be
switched. -/
def switchDemoMessage : Message :=
  { role := "user", content := "안녕", timestamp := "AM 10:00", emotion := some "Happy" }

/-- The session state belonging to persona `"할머니"` holding
`switchDemoMessage`. -/
def switchDemoState : SessionState :=
  { selected_persona := "할머니"
    messages := [switchDemoMessage]
    conversation_stats := { total := 1, positive := 1, negative := 0 }
    current_emotion := "Happy"
    last_message := some "안녕"
    audio_bytes := none
    processed_audio := false
    initialized := true }

/-- **C1**: switching persona from `"할머니"` to `"친구"` re-seeds the
state for the new persona but restores the old persona's message into the
new conversation — the restore guard compares personas only after
re-initialization has already recorded the new one, so pre-switch history
is carried over, contradicting the specified discard. -/
theorem C1_persona_switch_carries_history :
    (render_chat_page_state "친구" switchDemoState).messages = [switchDemoMessage] ∧
    (render_chat_page_state "친구" switchDemoState).selected_persona = "친구" ∧
    switchDemoState.selected_persona ≠ "친구" := by decide

/-- **C5**: the resampling branch of `process_audio` is dead code — the
output never depends on the resampler, because the code assigns
`current_sample_rate = target_sample_rate` immediately before testing
whether the two differ. -/
theorem C5_resampler_never_applied (resample resample2 : List ℚ → List ℚ)
    (waveform : List (List ℚ)) :
    process_audio resample waveform = process_audio resample2 waveform := by
  have h : ∀ (r : List ℚ → List ℚ) (w : List ℚ),
      (if target_sample_rate ≠ target_sample_rate then r w else w) = w := by
    intro r w
    simp
  simp only [process_audio, h]

/-- **C5** witness: a concrete waveform is normalized identically whether
the resampler doubles every sample or is the identity. -/
theorem C5_witness :
    process_audio (fun w => w.map fun q => 2 * q) [[1, 2, 3]] =
      process_audio (fun w => w) [[1, 2, 3]] :=
  C5_resampler_never_applied (fun w => w.map fun q => 2 * q) (fun w => w) [[1, 2, 3]]

/-- **C6** counterexample: a zero-sample input does not make
`process_audio` fail; it returns a fully normalized all-zero one-second
window. -/
theorem C6_counterexample :
    process_audio (fun w => w) [[]] = some (List.replicate 16000 0) := rfl

/-- **C6** (amended): on an input with zero samples the normalizer does
not fail: it zero-pads and returns the all-zero window of exactly
`target_length` samples. -/
theorem C6_zero_samples_padded (resample : List ℚ → List ℚ)
    (waveform : List (List ℚ)) (h : ∀ ch ∈ waveform, ch = []) :
    process_audio resample waveform = some (List.replicate target_length 0) := by
  have hhead : waveform.headD [] = [] := by
    cases waveform with
    | nil => rfl
    | cons ch rest => exact h ch (by simp)
  have hmean : meanChannel waveform = [] := by
    unfold meanChannel
    rw [hhead]
    rfl
  have hw : (if waveform.length > 1 then meanChannel waveform else waveform.headD []) =
      [] := by
    split
    · exact hmean
    · exact hhead
  have hlt : 0 < target_length := by decide
  simp only [process_audio, hw, List.length_nil, gt_iff_lt, lt_self_iff_false, if_false,
    hlt, if_true, Nat.sub_zero, List.nil_append]

/-- **C6** witness: two empty channels are padded to the all-zero
window. -/
theorem C6_witness :
    (∀ ch ∈ ([[], []] : List (List ℚ)), ch = []) ∧
    process_audio (fun w => w) [[], []] = some (List.replicate target_length 0) :=
  ⟨by decide, C6_zero_samples_padded (fun w => w) [[], []] (by decide)⟩

/-- The channel-mixing step of `process_audio` in isolation (main.py:78-79):
multi-channel input is averaged, anything else passes through as the
single (or absent) channel. -/
def downmix (w0 : List (List ℚ)) : List ℚ :=
  if w0.length > 1 then meanChannel w0 else w0.headD []

/-- `process_audio` reduced to downmix followed by pad/crop: the
resampling conditional drops out (its guard is `target ≠ target`). -/
theorem process_audio_eq (resample : List ℚ → List ℚ) (w0 : List (List ℚ)) :
    process_audio resample w0 =
      if (downmix w0).length < target_length then
        some (downmix w0 ++ List.replicate (target_length - (downmix w0).length) 0)
      else
        some (((downmix w0).drop (((downmix w0).length - target_length) / 2)).take
          target_length) := by
  simp only [process_audio, downmix, ne_eq, not_true_eq_false, if_false, ite_self]

/-- On a rectangular waveform the downmixed channel keeps the common
channel length. -/
theorem downmix_length (w0 : List (List ℚ)) (L : Nat) (hne : w0 ≠ [])
    (hchan : ∀ ch ∈ w0, ch.length = L) : (downmix w0).length = L := by
  obtain ⟨ch, rest, rfl⟩ := List.exists_cons_of_ne_nil hne
  have hch : ch.length = L := hchan ch (by simp)
  unfold downmix
  split
  · simp [meanChannel, hch]
  · simpa using hch

/-- On a rectangular waveform each downmixed sample is the arithmetic
mean of the channels at that index. -/
theorem downmix_getD (w0 : List (List ℚ)) (L : Nat) (hne : w0 ≠ [])
    (hchan : ∀ ch ∈ w0, ch.length = L) (i : Nat) (hi : i < L) :
    (downmix w0).getD i 0 = chanMean w0 i := by
  obtain ⟨ch, rest, rfl⟩ := List.exists_cons_of_ne_nil hne
  have hch : ch.length = L := hchan ch (by simp)
  unfold downmix
  split
  · have hlen : i < (meanChannel (ch :: rest)).length := by
      simp [meanChannel, hch]
      omega
    rw [List.getD_eq_getElem _ _ hlen]
    simp [meanChannel]
  · next hgt =>
      have hrest : rest = [] := by
        cases rest with
        | nil => rfl
        | cons a t => exact absurd (by simp) hgt
      subst hrest
      simp [chanMean]

/-- Reading a zero-filled list with default `0` always gives `0`. -/
theorem replicate_getD (n j : Nat) : (List.replicate n (0 : ℚ)).getD j 0 = 0 := by
  rcases Nat.lt_or_ge j n with h | h
  · rw [List.getD_eq_getElem _ _ (by simpa using h)]
    exact List.getElem_replicate _ _
  · exact List.getD_eq_default _ _ (by simpa using h)

/-- **C4**: on any non-empty rectangular waveform the normalizer yields a
single channel of exactly `target_length` samples, each sample being the
arithmetic channel mean at its source index: shorter input keeps its `L`
mean samples followed by zeros, longer input is the contiguous center
crop starting at `(L - target_length) / 2`. -/
theorem C4_normalizer_shape (resample : List ℚ → List ℚ) (w0 : List (List ℚ))
    (L : Nat) (hne : w0 ≠ []) (hchan : ∀ ch ∈ w0, ch.length = L) (_hL : 0 < L) :
    ∃ out, process_audio resample w0 = some out ∧ out.length = target_length ∧
      (L < target_length →
        (∀ i < L, out.getD i 0 = chanMean w0 i) ∧ ∀ i, L ≤ i → out.getD i 0 = 0) ∧
      (target_length ≤ L → ∀ i < target_length,
        out.getD i 0 = chanMean w0 ((L - target_length) / 2 + i)) := by
  have hdl := downmix_length w0 L hne hchan
  have hdg := downmix_getD w0 L hne hchan
  rw [process_audio_eq, hdl]
  by_cases hc : L < target_length
  · refine ⟨downmix w0 ++ List.replicate (target_length - L) 0, by rw [if_pos hc],
      ?_, ?_, ?_⟩
    · simp [hdl]
      omega
    · intro _
      constructor
      · intro i hi
        rw [List.getD_append _ _ _ _ (by rw [hdl]; exact hi)]
        exact hdg i hi
      · intro i hiL
        rw [List.getD_append_right _ _ _ _ (by rw [hdl]; exact hiL)]
        exact replicate_getD _ _
    · intro h16
      omega
  · have hge : target_length ≤ L := Nat.le_of_not_lt hc
    have hs : (L - target_length) / 2 ≤ L - target_length := Nat.div_le_self _ _
    refine ⟨((downmix w0).drop ((L - target_length) / 2)).take target_length,
      by rw [if_neg hc], ?_, ?_, ?_⟩
    · simp [List.length_take, List.length_drop, hdl]
      omega
    · intro h
      omega
    · intro _ i hi
      have hsi : (L - target_length) / 2 + i < L := by omega
      have hlen : i <
          (((downmix w0).drop ((L - target_length) / 2)).take target_length).length := by
        simp [List.length_take, List.length_drop, hdl]
        omega
      rw [List.getD_eq_getElem _ _ hlen]
      rw [List.getElem_take, List.getElem_drop]
      rw [← List.getD_eq_getElem _ 0 (by rw [hdl]; exact hsi)]
      exact hdg _ hsi

/-- **C4** witness: the two-channel, one-sample waveform `[[1], [3]]` is
normalized per the shape theorem. -/
theorem C4_witness :
    ([[(1 : ℚ)], [3]] : List (List ℚ)) ≠ [] ∧
    (∀ ch ∈ ([[(1 : ℚ)], [3]] : List (List ℚ)), ch.length = 1) ∧
    0 < 1 ∧
    ∃ out, process_audio (fun w => w) [[(1 : ℚ)], [3]] = some out ∧
      out.length = target_length ∧
      (1 < target_length →
        (∀ i < 1, out.getD i 0 = chanMean [[(1 : ℚ)], [3]] i) ∧
        ∀ i, 1 ≤ i → out.getD i 0 = 0) ∧
      (target_length ≤ 1 → ∀ i < target_length,
        out.getD i 0 = chanMean [[(1 : ℚ)], [3]] ((1 - target_length) / 2 + i)) :=
  ⟨by decide, by decide, by decide,
    C4_normalizer_shape (fun w => w) [[(1 : ℚ)], [3]] 1 (by decide) (by decide)
      (by decide)⟩

end VoiceChatbot
